import Mathlib

/-!
# Verification of the re-emission GHG emission engine (`reemission/emissions.py`)

Shallow embedding of the emission-calculation classes
(`Emission`, `CarbonDioxideEmission`, `MethaneEmission`, `NitrousOxideEmission`)
over exact real arithmetic.  Python float operations are modelled as operations
on `ℝ`; `10 ** x` is `Real.rpow`, `math.log10` is `Real.logb 10`,
`math.log` is `Real.log`, `math.exp` is `Real.exp`, `math.erf` is the Gauss
error function defined below.  Methods that can raise a Python exception are
modelled with `Except`.
-/

namespace Reemission

/-- Modelled from the spec: the Reservoir collaborator (spec section 6), consumed
only through the listed attributes/methods; its derivations live outside the
verified module, so each is an input field here.  `thermocline_depth` and
`reservoir_tp` are methods taking arguments, hence function-valued fields. -/
structure Reservoir where
  area : ℝ
  soil_carbon : ℝ
  area_fractions : List ℝ
  littoral_area_frac : ℝ
  global_radiance : ℝ
  residence_time : ℝ
  discharge : ℝ
  water_intake_depth : ℝ
  thermocline_depth : ℝ → ℝ
  mean_monthly_windspeed : ℝ
  ch4_preemission_factor : ℝ
  reservoir_tp : ℝ → String → ℝ

/-- Modelled from the spec: the Catchment collaborator (spec section 6), consumed
only through the listed attributes/methods. -/
structure Catchment where
  nitrogen_load : ℝ
  phosphorus_load : String → ℝ
  inflow_p_conc : String → ℝ
  discharge : ℝ
  river_area_before_impoundment : ℝ

/-- Embeds `Emission.__init__`'s handling of the `preinund_area` argument
(emissions.py lines 82-91).  The attribute `self.preinund_area` is assigned
only when the argument is `None` (taken from
`catchment.river_area_before_impoundment()`); when a value is passed
explicitly no assignment happens, so the comparison
`self.preinund_area > self.reservoir.area` on line 90 reads an attribute that
was never set and raises `AttributeError`.  The returned Bool records whether
the over-size warning was logged. -/
noncomputable def Emission.init_preinund (preinund_area : Option ℝ)
    (river_area_before_impoundment : ℝ) (reservoir_area : ℝ) :
    Except String (ℝ × Bool) :=
  match preinund_area with
  | none =>
      let a := river_area_before_impoundment
      Except.ok (a, if a > reservoir_area then true else false)
  | some _ => Except.error "AttributeError: preinund_area"

/-- The 11 constants read from config section `CARBON_DIOXIDE`
(emissions.py lines 164-168). -/
structure CO2Par where
  k1_diff : ℝ
  k2_diff : ℝ
  k3_diff : ℝ
  k4_diff : ℝ
  k5_diff : ℝ
  k6_diff : ℝ
  k7_diff : ℝ
  conv_coeff : ℝ
  co2_gwp100 : ℝ
  weight_C : ℝ
  weight_CO2 : ℝ

/-- State of a constructed `CarbonDioxideEmission`.  `landuses` embeds
`3 * list(Landuse.__dict__["_member_map_"].values())` (string values),
`supported_landuses` the keys of `pre_impoundment_table["boreal"]["mineral"]`,
and `table_coeff` the lookup
`pre_impoundment_table[climate.value][soil_type.value][landuse.value]`;
`ret_coeff_method` is `config["CALCULATIONS"]["ret_coeff_method"]`. -/
structure CarbonDioxideEmission where
  catchment : Catchment
  reservoir : Reservoir
  preinund_area : ℝ
  eff_temp : ℝ
  p_calc_method : String
  ret_coeff_method : String
  par : CO2Par
  landuses : List String
  supported_landuses : List String
  table_coeff : String → ℝ

namespace CarbonDioxideEmission

/-- `CarbonDioxideEmission.reservoir_tp` property (emissions.py lines 172-177). -/
noncomputable def reservoir_tp (e : CarbonDioxideEmission) : ℝ :=
  e.reservoir.reservoir_tp (e.catchment.inflow_p_conc e.p_calc_method)
    e.ret_coeff_method

/-- `CarbonDioxideEmission.pre_impoundment` (emissions.py lines 179-209). -/
noncomputable def pre_impoundment (e : CarbonDioxideEmission) : ℝ :=
  let emissions : List ℝ :=
    (List.zip e.landuses e.reservoir.area_fractions).filterMap
      (fun lf =>
        let area_landuse := 100 * e.reservoir.area * lf.2
        if lf.1 ∈ e.supported_landuses then
          some (area_landuse * e.table_coeff lf.1)
        else none)
  let tot_emission := emissions.sum
  let c_co2_ratio := e.par.weight_C / e.par.weight_CO2
  tot_emission / e.reservoir.area * (1 / c_co2_ratio) * e.par.co2_gwp100

/-- `CarbonDioxideEmission.diffusion_flux` (emissions.py lines 211-263).
Both branches of the `time_horizon` check set `gwp` to `co2_gwp100`;
note the `365.25` day-to-year factor in the code (line 252). -/
noncomputable def diffusion_flux (e : CarbonDioxideEmission)
    (year : ℝ) (time_horizon : ℝ) : ℝ :=
  let gwp := e.par.co2_gwp100
  gwp * e.par.weight_CO2 / e.par.weight_C / 1000 * 365.25
    * (10 : ℝ)
      ^ (e.par.k1_diff
        + Real.logb 10 year * e.par.k2_diff
        + e.eff_temp * e.par.k3_diff
        + Real.logb 10 e.reservoir.area * e.par.k4_diff
        + e.reservoir.soil_carbon * e.par.k5_diff
        + Real.logb 10 e.reservoir_tp * e.par.k6_diff)
    * (1 - e.preinund_area / e.reservoir.area)

/-- `CarbonDioxideEmission.diffusion_flux_int` (emissions.py lines 265-292). -/
noncomputable def diffusion_flux_int (e : CarbonDioxideEmission)
    (number_of_years : ℝ) : ℝ :=
  e.diffusion_flux 1 number_of_years
    * (number_of_years ^ (e.par.k7_diff + 1)
      - (0.5 : ℝ) ^ (e.par.k7_diff + 1))
    / ((e.par.k7_diff + 1) * (number_of_years - 0.5))

/-- `CarbonDioxideEmission.diffusion_flux_nonanthro` (emissions.py
lines 294-301): the flux after 100 years, with the default 100-yr horizon. -/
noncomputable def diffusion_flux_nonanthro (e : CarbonDioxideEmission) : ℝ :=
  e.diffusion_flux 100 100

/-- `CarbonDioxideEmission._diffusion_flux_profile` (emissions.py
lines 303-308); `diffusion_flux` is called with the default horizon 100. -/
noncomputable def diffusion_flux_profile (e : CarbonDioxideEmission)
    (years : List ℝ) : List ℝ :=
  years.map (fun year => e.diffusion_flux year 100)

/-- `CarbonDioxideEmission.net_total` (emissions.py lines 310-317). -/
noncomputable def net_total (e : CarbonDioxideEmission)
    (number_of_years : ℝ) : ℝ :=
  e.diffusion_flux_int number_of_years - e.diffusion_flux_nonanthro

/-- `CarbonDioxideEmission.profile` (emissions.py lines 319-330). -/
noncomputable def profile (e : CarbonDioxideEmission)
    (years : List ℝ) : List ℝ :=
  let pre_impoundment := e.pre_impoundment
  let non_anthro := e.diffusion_flux_nonanthro
  (e.diffusion_flux_profile years).map
    (fun flux => flux - non_anthro - pre_impoundment)

/-- `CarbonDioxideEmission.factor` (emissions.py lines 332-337). -/
noncomputable def factor (e : CarbonDioxideEmission)
    (number_of_years : ℝ) : ℝ :=
  e.net_total number_of_years - e.pre_impoundment

/-- `CarbonDioxideEmission.total_emission_per_year` (emissions.py
lines 339-342). -/
noncomputable def total_emission_per_year (e : CarbonDioxideEmission)
    (number_of_years : ℝ) : ℝ :=
  e.factor number_of_years * e.reservoir.area

/-- `CarbonDioxideEmission.total_lifetime_emission` (emissions.py
lines 344-347). -/
noncomputable def total_lifetime_emission (e : CarbonDioxideEmission)
    (number_of_years : ℝ) : ℝ :=
  e.total_emission_per_year number_of_years * number_of_years / 1000

end CarbonDioxideEmission

/-- The 16 constants read from config section `METHANE`
(emissions.py lines 386-392). -/
structure CH4Par where
  k1_diff : ℝ
  k2_diff : ℝ
  k3_diff : ℝ
  k4_diff : ℝ
  k1_ebull : ℝ
  k2_ebull : ℝ
  k3_ebull : ℝ
  k1_degas : ℝ
  k2_degas : ℝ
  k3_degas : ℝ
  k4_degas : ℝ
  weight_CO2 : ℝ
  weight_CH4 : ℝ
  weight_C : ℝ
  ch4_gwp100 : ℝ
  conv_coeff : ℝ

/-- State of a constructed `MethaneEmission`.  `eff_temp_ch4` embeds the
MonthlyTemperature collaborator call `monthly_temp.eff_temp(gas="ch4")`;
the landuse-table fields play the same role as in `CarbonDioxideEmission`
(here the table holds kg CH4/ha/yr coefficients). -/
structure MethaneEmission where
  catchment : Catchment
  reservoir : Reservoir
  preinund_area : ℝ
  eff_temp_ch4 : ℝ
  par : CH4Par
  landuses : List String
  supported_landuses : List String
  table_coeff : String → ℝ

namespace MethaneEmission

/-- `MethaneEmission.pre_impoundment` (emissions.py lines 394-442):
landuse-table terms plus the open-water pre-emission term
`reservoir.ch4_preemission_factor() * reservoir.area * 100`. -/
noncomputable def pre_impoundment (e : MethaneEmission) : ℝ :=
  let landuse_emissions : List ℝ :=
    (List.zip e.landuses e.reservoir.area_fractions).filterMap
      (fun lf =>
        let area_landuse := 100 * e.reservoir.area * lf.2
        if lf.1 ∈ e.supported_landuses then
          some (area_landuse * e.table_coeff lf.1)
        else none)
  let emissions : List ℝ :=
    landuse_emissions ++ [e.reservoir.ch4_preemission_factor * e.reservoir.area * 100]
  let ch4_co2_ratio := e.par.weight_CH4 / e.par.weight_CO2
  emissions.sum / e.reservoir.area * 1e-3 * (1 / ch4_co2_ratio)
    * e.par.ch4_gwp100

/-- `MethaneEmission.ebullition_flux` (emissions.py lines 444-499).  The
`year` argument only triggers a log message, never a change of value; both
branches of the `time_horizon` check set `gwp` to `ch4_gwp100`. -/
noncomputable def ebullition_flux (e : MethaneEmission)
    (year : Option ℝ) (time_horizon : ℝ) : ℝ :=
  let gwp := e.par.ch4_gwp100
  let littoral_perc := e.reservoir.littoral_area_frac
  let emission_in_ch4 := (10 : ℝ)
    ^ (e.par.k1_ebull
      + e.par.k2_ebull * Real.logb 10 (littoral_perc / 100)
      + e.par.k3_ebull * e.reservoir.global_radiance)
  let co2_c_ratio := e.par.weight_CH4 / e.par.weight_C
  emission_in_ch4 * 365 * co2_c_ratio * gwp * 1 / 1000

/-- `MethaneEmission.ebullition_flux_int` (emissions.py lines 501-517):
delegates to `ebullition_flux` with `year=None`. -/
noncomputable def ebullition_flux_int (e : MethaneEmission)
    (time_horizon : ℝ) : ℝ :=
  e.ebullition_flux none time_horizon

/-- `MethaneEmission._ebullition_flux_profile` (emissions.py lines 519-528):
`[self.ebullition_flux_int()] * len(years)` with the default horizon 100. -/
noncomputable def ebullition_flux_profile (e : MethaneEmission)
    (years : List ℝ) : List ℝ :=
  List.replicate years.length (e.ebullition_flux_int 100)

/-- `MethaneEmission.diffusion_flux` (emissions.py lines 530-577); both
branches of the `time_horizon` check set `gwp` to `ch4_gwp100`. -/
noncomputable def diffusion_flux (e : MethaneEmission)
    (year : ℝ) (time_horizon : ℝ) : ℝ :=
  let gwp := e.par.ch4_gwp100
  let littoral_perc := e.reservoir.littoral_area_frac
  let eff_temp := e.eff_temp_ch4
  let aux_var_1 := e.par.k2_diff * year
  let aux_var_2 := e.par.k3_diff * Real.logb 10 (littoral_perc / 100)
  let aux_var_3 := e.par.k4_diff * eff_temp
  (10 : ℝ) ^ (e.par.k1_diff + aux_var_1 + aux_var_2 + aux_var_3)
    * e.par.weight_CH4 / e.par.weight_C * gwp * 365 / 1000

/-- `MethaneEmission.diffusion_flux_int` (emissions.py lines 579-606). -/
noncomputable def diffusion_flux_int (e : MethaneEmission)
    (time_horizon : ℝ) : ℝ :=
  let aux1 := e.diffusion_flux 1 time_horizon
  aux1 * (1 - (10 : ℝ) ^ (e.par.k2_diff * time_horizon))
    / (-e.par.k2_diff * time_horizon * Real.log 10)

/-- `MethaneEmission._diffusion_flux_profile` (emissions.py lines 608-614);
`diffusion_flux` is called with the default horizon 100. -/
noncomputable def diffusion_flux_profile (e : MethaneEmission)
    (years : List ℝ) : List ℝ :=
  years.map (fun year => e.diffusion_flux year 100)

/-- `MethaneEmission.degassing_flux_int` (emissions.py lines 616-681):
zero unless `water_intake_depth > thermocline_depth(mean_monthly_windspeed)`;
both branches of the `time_horizon` check set `gwp` to `ch4_gwp100`. -/
noncomputable def degassing_flux_int (e : MethaneEmission)
    (time_horizon : ℝ) : ℝ :=
  let gwp := e.par.ch4_gwp100
  if e.reservoir.water_intake_depth >
      e.reservoir.thermocline_depth e.reservoir.mean_monthly_windspeed then
    let ch4_conc_diff := (10 : ℝ)
      ^ (e.par.k1_degas
        + e.par.k2_degas * Real.logb 10 e.reservoir.residence_time
        + e.par.k3_degas * Real.logb 10 (e.diffusion_flux_int time_horizon))
    let ch4_out_flux := 0.9 * 1e-6 * ch4_conc_diff * e.reservoir.discharge
    ch4_out_flux * e.par.weight_CH4 / e.par.weight_C * gwp / e.reservoir.area
  else 0.0

/-- `MethaneEmission.degassing_flux` (emissions.py lines 683-713):
the year-0 value anchored to the integral, decayed exponentially. -/
noncomputable def degassing_flux (e : MethaneEmission)
    (year : ℝ) (time_horizon : ℝ) : ℝ :=
  let init_flux := e.degassing_flux_int time_horizon
    * (-e.par.k4_degas * Real.log 10 * time_horizon)
    / (1 - (10 : ℝ) ^ (time_horizon * e.par.k4_degas))
  init_flux * Real.exp (e.par.k4_degas * Real.log 10 * year)

/-- `MethaneEmission._degassing_flux_profile` (emissions.py lines 715-721);
`degassing_flux` is called with the default horizon 100. -/
noncomputable def degassing_flux_profile (e : MethaneEmission)
    (years : List ℝ) : List ℝ :=
  years.map (fun year => e.degassing_flux year 100)

/-- `MethaneEmission.factor` (emissions.py lines 723-730). -/
noncomputable def factor (e : MethaneEmission) (number_of_years : ℝ) : ℝ :=
  e.diffusion_flux_int number_of_years
    + e.ebullition_flux_int number_of_years
    + e.degassing_flux_int number_of_years
    - e.pre_impoundment

/-- `MethaneEmission.profile` (emissions.py lines 738-749): elementwise sum
of the diffusion, ebullition, degassing and (negated) pre-impoundment
profiles, via `np.sum` over the stacked rows. -/
noncomputable def profile (e : MethaneEmission) (years : List ℝ) : List ℝ :=
  let diff_profile := e.diffusion_flux_profile years
  let ebull_profile := e.ebullition_flux_profile years
  let deg_profile := e.degassing_flux_profile years
  let pre_impound_profile := years.map (fun _ => -e.pre_impoundment)
  List.zipWith (· + ·)
    (List.zipWith (· + ·) (List.zipWith (· + ·) diff_profile ebull_profile)
      deg_profile)
    pre_impound_profile

/-- `MethaneEmission.total_emission_per_year` (emissions.py lines 751-754). -/
noncomputable def total_emission_per_year (e : MethaneEmission)
    (number_of_years : ℝ) : ℝ :=
  e.factor number_of_years * e.reservoir.area

/-- `MethaneEmission.total_lifetime_emission` (emissions.py lines 756-759). -/
noncomputable def total_lifetime_emission (e : MethaneEmission)
    (number_of_years : ℝ) : ℝ :=
  e.total_emission_per_year number_of_years * number_of_years / 1000

end MethaneEmission

/-- The Gauss error function, used to embed Python's `math.erf`:
`erf x = (2/√π) ∫ t in 0..x, exp (-t²)`. -/
noncomputable def erf (x : ℝ) : ℝ :=
  (2 / Real.sqrt Real.pi) * ∫ t in (0 : ℝ)..x, Real.exp (-(t ^ 2))

/-- `reemission.exceptions.WrongN2OModelError`, raised by
`NitrousOxideEmission.factor` with the tuple of permitted models
(emissions.py line 848). -/
structure WrongN2OModelError where
  permitted_models : List String
deriving DecidableEq

/-- The 4 constants read from config section `NITROUS_OXIDE`
(emissions.py lines 785-788). -/
structure N2OPar where
  nitrous_gwp100 : ℝ
  weight_O : ℝ
  weight_P : ℝ
  weight_N : ℝ

/-- State of a constructed `NitrousOxideEmission` (emissions.py
lines 762-790). -/
structure NitrousOxideEmission where
  catchment : Catchment
  reservoir : Reservoir
  preinund_area : ℝ
  model : String
  p_export_model : String
  par : N2OPar

namespace NitrousOxideEmission

/-- `NitrousOxideEmission.available_models` (emissions.py line 772). -/
def available_models : List String := ["model_1", "model_2"]

/-- The model-name normalisation performed by `NitrousOxideEmission.__init__`
(emissions.py lines 778-781): an unrecognised model falls back to
`"model_1"` with a logged warning. -/
def init_model (model : String) : String :=
  if model ∉ available_models then "model_1" else model

/-- `NitrousOxideEmission._total_to_unit` (emissions.py lines 792-794). -/
noncomputable def total_to_unit (e : NitrousOxideEmission)
    (emission : ℝ) : ℝ :=
  emission / e.par.weight_N / e.reservoir.area

/-- `NitrousOxideEmission._unit_to_total` (emissions.py lines 796-798). -/
noncomputable def unit_to_total (e : NitrousOxideEmission)
    (unit_emission : ℝ) : ℝ :=
  unit_emission * e.reservoir.area * e.par.weight_N

/-- `NitrousOxideEmission.tn_fixation_load` (emissions.py lines 800-838). -/
noncomputable def tn_fixation_load (e : NitrousOxideEmission) : ℝ :=
  let tp_load_annual := e.catchment.phosphorus_load e.p_export_model
  let tn_load_annual := e.catchment.nitrogen_load
  let mu_coeff := max 0 (erf ((e.reservoir.residence_time - 0.028) / 0.04))
  let tn_tp_ratio := (tn_load_annual / e.par.weight_N)
    / (tp_load_annual / e.par.weight_P)
  let tn_fix_percent :=
    (37.2 / (1 + Real.exp (0.5 * tn_tp_ratio - 6.877))) * mu_coeff
  0.01 * tn_fix_percent * tn_load_annual

/-- `NitrousOxideEmission._n2o_denitrification_m1` (emissions.py
lines 890-899). -/
noncomputable def n2o_denitrification_m1 (e : NitrousOxideEmission) : ℝ :=
  0.009 * (e.catchment.nitrogen_load + e.tn_fixation_load)
    * (0.3833 * erf (0.4723 * e.reservoir.residence_time))

/-- `NitrousOxideEmission._n2o_nitrification_m1` (emissions.py
lines 901-910). -/
noncomputable def n2o_nitrification_m1 (e : NitrousOxideEmission) : ℝ :=
  0.009 * (e.catchment.nitrogen_load + e.tn_fixation_load)
    * (0.5144 * erf (0.3692 * e.reservoir.residence_time))

/-- `NitrousOxideEmission._n2o_emission_m1_co2` (emissions.py
lines 870-881). -/
noncomputable def n2o_emission_m1_co2 (e : NitrousOxideEmission) : ℝ :=
  let total_n2o_emission := e.n2o_denitrification_m1 + e.n2o_nitrification_m1
  let unit_n2o_emission := e.total_to_unit total_n2o_emission
  e.par.weight_N * (1 + e.par.weight_O / (2 * e.par.weight_N))
    * e.par.nitrous_gwp100 * unit_n2o_emission * (10 : ℝ) ^ (-3 : ℝ)

/-- `NitrousOxideEmission._n2o_emission_m2_n` (emissions.py lines 912-927). -/
noncomputable def n2o_emission_m2_n (e : NitrousOxideEmission) : ℝ :=
  e.catchment.nitrogen_load
    * (0.002277 * erf (1.63 * e.reservoir.residence_time))

/-- `NitrousOxideEmission._unit_n2o_emission_m2` (emissions.py
lines 929-931). -/
noncomputable def unit_n2o_emission_m2 (e : NitrousOxideEmission) : ℝ :=
  e.total_to_unit e.n2o_emission_m2_n

/-- `NitrousOxideEmission._n2o_emission_m2_co2` (emissions.py
lines 883-888). -/
noncomputable def n2o_emission_m2_co2 (e : NitrousOxideEmission) : ℝ :=
  e.par.weight_N * (1 + e.par.weight_O / (2 * e.par.weight_N))
    * e.par.nitrous_gwp100 * e.unit_n2o_emission_m2 * (10 : ℝ) ^ (-3 : ℝ)

/-- `NitrousOxideEmission.factor` (emissions.py lines 840-857).  The keyword
argument `model: Optional[str] = None` is embedded as `Option String`;
Python's truthiness test `if not model` treats both `None` and the empty
string as "no model requested", falling back to `self.model`.  An
unrecognised (non-falsy) model name raises `WrongN2OModelError`; this is the
only exceptional path, so the result is an `Except`.  The argument
`number_of_years` is accepted but never used. -/
noncomputable def factor (e : NitrousOxideEmission)
    (number_of_years : ℝ) (mean : Bool) (model : Option String) :
    Except WrongN2OModelError ℝ :=
  let model' := match model with
    | none => e.model
    | some m => if m = "" then e.model else m
  if model' ∉ available_models then
    Except.error ⟨available_models⟩
  else if mean then
    Except.ok (0.5 * (e.n2o_emission_m1_co2 + e.n2o_emission_m2_co2))
  else if model' = "model_1" then
    Except.ok e.n2o_emission_m1_co2
  else
    Except.ok e.n2o_emission_m2_co2

/-- `NitrousOxideEmission.profile` (emissions.py lines 859-868):
`[self.factor()] * len(years)`; a `WrongN2OModelError` raised by `factor`
propagates out of `profile`. -/
noncomputable def profile (e : NitrousOxideEmission)
    (years : List ℝ) : Except WrongN2OModelError (List ℝ) :=
  (e.factor 666 false none).map (fun v => List.replicate years.length v)

/-- `NitrousOxideEmission.total_emission_per_year` (emissions.py
lines 978-981): `self.factor(number_of_years) * self.reservoir.area`,
with `factor`'s defaults `mean=False`, `model=None`. -/
noncomputable def total_emission_per_year (e : NitrousOxideEmission)
    (number_of_years : ℝ) : Except WrongN2OModelError ℝ :=
  (e.factor number_of_years false none).map (fun v => v * e.reservoir.area)

/-- `NitrousOxideEmission.total_lifetime_emission` (emissions.py
lines 983-986). -/
noncomputable def total_lifetime_emission (e : NitrousOxideEmission)
    (number_of_years : ℝ) : Except WrongN2OModelError ℝ :=
  (e.total_emission_per_year number_of_years).map
    (fun v => v * number_of_years / 1000)

end NitrousOxideEmission

/-- Modelled from the spec: the published CO2 regression formula of spec
sections 4.2 and 8 — the `10^(k1 + k2·log10(year) + k3·effTemp + k4·log10(area)
+ k5·soilCarbon + k6·log10(reservoir_tp))` regression, multiplied by the unit
conversions mg→g (`1/1000`), day→year (`365`), the CO2:C molecular-weight
ratio, the 100-yr GWP, and the correction factor `(1 − preinundArea/area)`. -/
noncomputable def co2_diffusion_flux_formula (e : CarbonDioxideEmission)
    (year : ℝ) : ℝ :=
  e.par.co2_gwp100 * e.par.weight_CO2 / e.par.weight_C / 1000 * 365
    * (10 : ℝ)
      ^ (e.par.k1_diff
        + Real.logb 10 year * e.par.k2_diff
        + e.eff_temp * e.par.k3_diff
        + Real.logb 10 e.reservoir.area * e.par.k4_diff
        + e.reservoir.soil_carbon * e.par.k5_diff
        + Real.logb 10 e.reservoir_tp * e.par.k6_diff)
    * (1 - e.preinund_area / e.reservoir.area)

/-- The code's flux differs from the published formula exactly by the factor
`365.25 / 365` (emissions.py line 252 multiplies by `365.25`, while the
method's own docstring states `365`). -/
theorem co2_diffusion_flux_eq_formula (e : CarbonDioxideEmission)
    (year time_horizon : ℝ) :
    e.diffusion_flux year time_horizon =
      365.25 / 365 * co2_diffusion_flux_formula e year := by
  unfold CarbonDioxideEmission.diffusion_flux co2_diffusion_flux_formula
  ring

/-- The published-formula flux is positive whenever the GWP and molecular
weights are positive and the pre-impoundment area is a proper fraction of
the reservoir area. -/
theorem co2_diffusion_flux_formula_pos (e : CarbonDioxideEmission) (year : ℝ)
    (hg : 0 < e.par.co2_gwp100) (hco2 : 0 < e.par.weight_CO2)
    (hc : 0 < e.par.weight_C)
    (hpre : e.preinund_area / e.reservoir.area < 1) :
    0 < co2_diffusion_flux_formula e year := by
  unfold co2_diffusion_flux_formula
  have h1 : (0 : ℝ) <
      e.par.co2_gwp100 * e.par.weight_CO2 / e.par.weight_C / 1000 * 365 := by
    positivity
  have h2 : (0 : ℝ) < (10 : ℝ)
      ^ (e.par.k1_diff
        + Real.logb 10 year * e.par.k2_diff
        + e.eff_temp * e.par.k3_diff
        + Real.logb 10 e.reservoir.area * e.par.k4_diff
        + e.reservoir.soil_carbon * e.par.k5_diff
        + Real.logb 10 e.reservoir_tp * e.par.k6_diff) :=
    Real.rpow_pos_of_pos (by norm_num) _
  have h3 : (0 : ℝ) < 1 - e.preinund_area / e.reservoir.area := by linarith
  exact mul_pos (mul_pos h1 h2) h3

/-- A concrete reservoir: the spec's worked-example reservoir (area 10 km²,
soil carbon 2.0, total phosphorus 10.0 µg/L) with a water intake (5 m) above
the thermocline (constant 10 m). -/
noncomputable def resA : Reservoir where
  area := 10
  soil_carbon := 2
  area_fractions := [0.3, 0.5, 0.2]
  littoral_area_frac := 20
  global_radiance := 4.5
  residence_time := 1.5
  discharge := 3.0e9
  water_intake_depth := 5
  thermocline_depth := fun _ => 10
  mean_monthly_windspeed := 3
  ch4_preemission_factor := 1
  reservoir_tp := fun _ _ => 10

/-- A concrete reservoir identical to `resA` except that the water intake
(20 m) is below the thermocline (constant 10 m), so degassing is active. -/
noncomputable def resB : Reservoir where
  area := 10
  soil_carbon := 2
  area_fractions := [0.3, 0.5, 0.2]
  littoral_area_frac := 20
  global_radiance := 4.5
  residence_time := 1.5
  discharge := 3.0e9
  water_intake_depth := 20
  thermocline_depth := fun _ => 10
  mean_monthly_windspeed := 3
  ch4_preemission_factor := 1
  reservoir_tp := fun _ _ => 10

/-- A concrete catchment for the worked examples. -/
noncomputable def catchA : Catchment where
  nitrogen_load := 5000
  phosphorus_load := fun _ => 400
  inflow_p_conc := fun _ => 25
  discharge := 2.0e9
  river_area_before_impoundment := 0.5

/-- The spec's worked-example CO2 model: literal coefficients, effective
temperature 20.0, pre-impoundment area 0.5 km², on `resA`. -/
noncomputable def co2ex : CarbonDioxideEmission where
  catchment := catchA
  reservoir := resA
  preinund_area := 0.5
  eff_temp := 20
  p_calc_method := "g-res"
  ret_coeff_method := "emp"
  par :=
    { k1_diff := 1.86
      k2_diff := -0.33
      k3_diff := 0.0332
      k4_diff := 0.0799
      k5_diff := 0.0155
      k6_diff := 0.2263
      k7_diff := -0.33
      conv_coeff := 0.0864
      co2_gwp100 := 1
      weight_C := 12
      weight_CO2 := 44 }
  landuses := ["crops", "forest", "wetlands"]
  supported_landuses := ["crops", "forest"]
  table_coeff := fun _ => 0.5

/-- A concrete CH4 model on `resA` (intake above thermocline). -/
noncomputable def ch4ex : MethaneEmission where
  catchment := catchA
  reservoir := resA
  preinund_area := 0.5
  eff_temp_ch4 := 18
  par :=
    { k1_diff := 0.8032
      k2_diff := -0.01419
      k3_diff := 0.4594
      k4_diff := 0.04819
      k1_ebull := -1.3104
      k2_ebull := 0.8515
      k3_ebull := 0.05198
      k1_degas := -6.9106
      k2_degas := 0.6017
      k3_degas := 2.9499924
      k4_degas := -0.033
      weight_CO2 := 44
      weight_CH4 := 16
      weight_C := 12
      ch4_gwp100 := 34
      conv_coeff := 0.0864 }
  landuses := ["crops", "forest", "wetlands"]
  supported_landuses := ["crops", "forest"]
  table_coeff := fun _ => 0.3

/-- A concrete CH4 model on `resB` (intake below thermocline, degassing
active). -/
noncomputable def ch4degas : MethaneEmission where
  catchment := catchA
  reservoir := resB
  preinund_area := 0.5
  eff_temp_ch4 := 18
  par :=
    { k1_diff := 0.8032
      k2_diff := -0.01419
      k3_diff := 0.4594
      k4_diff := 0.04819
      k1_ebull := -1.3104
      k2_ebull := 0.8515
      k3_ebull := 0.05198
      k1_degas := -6.9106
      k2_degas := 0.6017
      k3_degas := 2.9499924
      k4_degas := -0.033
      weight_CO2 := 44
      weight_CH4 := 16
      weight_C := 12
      ch4_gwp100 := 34
      conv_coeff := 0.0864 }
  landuses := ["crops", "forest", "wetlands"]
  supported_landuses := ["crops", "forest"]
  table_coeff := fun _ => 0.3

/-- A concrete N2O model with the (valid) default model selection. -/
noncomputable def n2oex : NitrousOxideEmission where
  catchment := catchA
  reservoir := resA
  preinund_area := 0.5
  model := "model_1"
  p_export_model := "g-res"
  par :=
    { nitrous_gwp100 := 298
      weight_O := 16
      weight_P := 31
      weight_N := 14 }

/-- **C1**: for every gas model (CO2, CH4, N2O) and every horizon `y > 0`,
`total_emission_per_year y` equals `factor y` times the reservoir area, and
`total_lifetime_emission y` equals `total_emission_per_year y * y / 1000`,
exactly — both derived algebraically from `factor` (for N2O, `factor` can
raise, so the identities hold on the `Except` results). -/
theorem C1_total_identities :
    (∀ (e : CarbonDioxideEmission) (y : ℝ), 0 < y →
      e.total_emission_per_year y = e.factor y * e.reservoir.area ∧
      e.total_lifetime_emission y = e.total_emission_per_year y * y / 1000) ∧
    (∀ (e : MethaneEmission) (y : ℝ), 0 < y →
      e.total_emission_per_year y = e.factor y * e.reservoir.area ∧
      e.total_lifetime_emission y = e.total_emission_per_year y * y / 1000) ∧
    (∀ (e : NitrousOxideEmission) (y : ℝ), 0 < y →
      e.total_emission_per_year y =
        (e.factor y false none).map (fun v => v * e.reservoir.area) ∧
      e.total_lifetime_emission y =
        (e.total_emission_per_year y).map (fun v => v * y / 1000)) :=
  ⟨fun _ _ _ => ⟨rfl, rfl⟩, fun _ _ _ => ⟨rfl, rfl⟩, fun _ _ _ => ⟨rfl, rfl⟩⟩

/-- Witness for **C1** at horizon `y = 100` on the three concrete models. -/
theorem C1_total_identities_witness :
    co2ex.total_emission_per_year 100 = co2ex.factor 100 * co2ex.reservoir.area ∧
    ch4ex.total_emission_per_year 100 = ch4ex.factor 100 * ch4ex.reservoir.area ∧
    n2oex.total_emission_per_year 100 =
      (n2oex.factor 100 false none).map (fun v => v * n2oex.reservoir.area) :=
  ⟨(C1_total_identities.1 co2ex 100 (by norm_num)).1,
   (C1_total_identities.2.1 ch4ex 100 (by norm_num)).1,
   (C1_total_identities.2.2 n2oex 100 (by norm_num)).1⟩

/-- **C3**: the claim says construction always succeeds with only a logged
warning when the pre-impoundment area exceeds the reservoir area, whether the
area is passed explicitly or derived from the catchment.  The code only
assigns `self.preinund_area` when the argument is `None`; when a value is
passed explicitly, the oversize check on line 90 reads the never-assigned
attribute and raises `AttributeError`, so construction is fatal — here the
explicit value `2` with reservoir area `1` errors, while the derived path
(river area `2`, reservoir area `1`) succeeds with the warning flag set. -/
theorem C3_explicit_preinund_area_is_fatal :
    Emission.init_preinund (some 2) 0.5 1 =
      Except.error "AttributeError: preinund_area" ∧
    Emission.init_preinund none 2 1 = Except.ok (2, true) := by
  refine ⟨rfl, ?_⟩
  show Except.ok ((2 : ℝ), if (2 : ℝ) > 1 then true else false) =
    Except.ok ((2 : ℝ), true)
  rw [if_pos (by norm_num : (2 : ℝ) > 1)]

/-- **C6**: for every horizon `n > 0.5`, `CarbonDioxideEmission.factor n`
equals `diffusion_flux(year=1) * (n^(k7+1) - 0.5^(k7+1)) / ((k7+1)*(n-0.5))`
minus `diffusion_flux_nonanthro()` minus `pre_impoundment()`. -/
theorem C6_co2_factor_closed_form (e : CarbonDioxideEmission) (n : ℝ)
    (h : 0.5 < n) :
    e.factor n =
      e.diffusion_flux 1 100
          * (n ^ (e.par.k7_diff + 1) - (0.5 : ℝ) ^ (e.par.k7_diff + 1))
          / ((e.par.k7_diff + 1) * (n - 0.5))
        - e.diffusion_flux_nonanthro - e.pre_impoundment := rfl

/-- Witness for **C6** at `n = 100` on the worked-example CO2 model. -/
theorem C6_co2_factor_closed_form_witness :
    (0.5 : ℝ) < 100 ∧
    co2ex.factor 100 =
      co2ex.diffusion_flux 1 100
          * ((100 : ℝ) ^ (co2ex.par.k7_diff + 1)
            - (0.5 : ℝ) ^ (co2ex.par.k7_diff + 1))
          / ((co2ex.par.k7_diff + 1) * (100 - 0.5))
        - co2ex.diffusion_flux_nonanthro - co2ex.pre_impoundment :=
  ⟨by norm_num, C6_co2_factor_closed_form co2ex 100 (by norm_num)⟩

/-- **C8**: for every horizon `n`, `MethaneEmission.factor n` equals
`diffusion_flux_int n + ebullition_flux_int n + degassing_flux_int n -
pre_impoundment()`, and `diffusion_flux_int n` equals
`diffusion_flux(year=1) * (1 - 10^(k2_diff*n)) / (-k2_diff*n*ln 10)`. -/
theorem C8_ch4_factor_sum_of_pathways (e : MethaneEmission) (n : ℝ) :
    e.factor n =
      e.diffusion_flux_int n + e.ebullition_flux_int n
        + e.degassing_flux_int n - e.pre_impoundment ∧
    e.diffusion_flux_int n =
      e.diffusion_flux 1 n * (1 - (10 : ℝ) ^ (e.par.k2_diff * n))
        / (-e.par.k2_diff * n * Real.log 10) :=
  ⟨rfl, rfl⟩

/-- **C10**: `NitrousOxideEmission.factor` ignores its `number_of_years`
argument entirely, and `profile years` is the flat list of length
`years.length` holding the value of `factor()` in every position. -/
theorem C10_n2o_time_flat (e : NitrousOxideEmission) :
    (∀ (n1 n2 : ℝ) (mean : Bool) (model : Option String),
      e.factor n1 mean model = e.factor n2 mean model) ∧
    ∀ (years : List ℝ) (v : ℝ), e.factor 666 false none = Except.ok v →
      e.profile years = Except.ok (List.replicate years.length v) := by
  refine ⟨fun _ _ _ _ => rfl, fun years v hv => ?_⟩
  unfold NitrousOxideEmission.profile
  rw [hv]
  rfl

/-- Witness for **C10** on the concrete N2O model and years `[1, 5]`. -/
theorem C10_n2o_time_flat_witness :
    n2oex.profile [1, 5] =
      Except.ok (List.replicate ([1, 5] : List ℝ).length
        n2oex.n2o_emission_m1_co2) :=
  (C10_n2o_time_flat n2oex).2 [1, 5] n2oex.n2o_emission_m1_co2 rfl

/-- **C4**: if the water intake is at or above the thermocline, the CH4
degassing integral and every degassing-profile value are exactly 0; otherwise
the integral is `10^(k1_degas + k2_degas*log10(residence_time) +
k3_degas*log10(diffusion_flux_int n)) * 0.9e-6 * discharge *
(CH4:C weight ratio) * GWP / area`. -/
theorem C4_ch4_degassing_conditional (e : MethaneEmission) (n : ℝ) :
    (e.reservoir.water_intake_depth ≤
        e.reservoir.thermocline_depth e.reservoir.mean_monthly_windspeed →
      e.degassing_flux_int n = 0 ∧ ∀ year : ℝ, e.degassing_flux year n = 0) ∧
    (e.reservoir.water_intake_depth >
        e.reservoir.thermocline_depth e.reservoir.mean_monthly_windspeed →
      e.degassing_flux_int n =
        (10 : ℝ) ^ (e.par.k1_degas
            + e.par.k2_degas * Real.logb 10 e.reservoir.residence_time
            + e.par.k3_degas * Real.logb 10 (e.diffusion_flux_int n))
          * (0.9 * 1e-6) * e.reservoir.discharge
          * (e.par.weight_CH4 / e.par.weight_C) * e.par.ch4_gwp100
          / e.reservoir.area) := by
  constructor
  · intro hle
    have h0 : e.degassing_flux_int n = 0 := by
      simp only [MethaneEmission.degassing_flux_int]
      rw [if_neg (not_lt.mpr hle)]
      norm_num
    refine ⟨h0, fun year => ?_⟩
    simp only [MethaneEmission.degassing_flux]
    rw [h0]
    ring
  · intro hgt
    simp only [MethaneEmission.degassing_flux_int]
    rw [if_pos hgt]
    ring

/-- Witness for **C4**: on `ch4ex` the intake (5 m) is above the thermocline
(10 m) and the degassing integral is 0; on `ch4degas` the intake (20 m) is
below it and the integral takes the regression form. -/
theorem C4_ch4_degassing_conditional_witness :
    ch4ex.degassing_flux_int 100 = 0 ∧
    ch4degas.degassing_flux_int 100 =
      (10 : ℝ) ^ (ch4degas.par.k1_degas
          + ch4degas.par.k2_degas
            * Real.logb 10 ch4degas.reservoir.residence_time
          + ch4degas.par.k3_degas
            * Real.logb 10 (ch4degas.diffusion_flux_int 100))
        * (0.9 * 1e-6) * ch4degas.reservoir.discharge
        * (ch4degas.par.weight_CH4 / ch4degas.par.weight_C)
        * ch4degas.par.ch4_gwp100 / ch4degas.reservoir.area :=
  ⟨((C4_ch4_degassing_conditional ch4ex 100).1
      (by norm_num [ch4ex, resA])).1,
   (C4_ch4_degassing_conditional ch4degas 100).2
      (by norm_num [ch4degas, resB])⟩

/-- **C5** counterexample: the claim says calling `factor` with *any*
unrecognized model name raises `WrongN2OModelError`, but the empty string —
which is not among the available models — is falsy in Python, so
`if not model` replaces it with the constructor-set model and no error is
raised: `factor(model="")` returns the model-1 value. -/
theorem C5_counterexample_empty_model :
    "" ∉ NitrousOxideEmission.available_models ∧
    n2oex.factor 666 false (some "") = Except.ok n2oex.n2o_emission_m1_co2 :=
  ⟨by decide, rfl⟩

/-- **C5** (amended): constructing with a model name outside
`{model_1, model_2}` succeeds by substituting the default `model_1`, a
recognised name is kept, and calling `factor` with any unrecognized
*non-empty* model name raises `WrongN2OModelError` (the empty string is falsy
and falls back to the constructor-set model). -/
theorem C5_construction_recovers_call_raises :
    (∀ m : String, m ∉ NitrousOxideEmission.available_models →
      NitrousOxideEmission.init_model m = "model_1") ∧
    (∀ m : String, m ∈ NitrousOxideEmission.available_models →
      NitrousOxideEmission.init_model m = m) ∧
    (∀ (e : NitrousOxideEmission) (n : ℝ) (mean : Bool) (m : String),
      m ∉ NitrousOxideEmission.available_models → m ≠ "" →
      e.factor n mean (some m) =
        Except.error ⟨NitrousOxideEmission.available_models⟩) := by
  refine ⟨fun m hm => ?_, fun m hm => ?_, fun e n mean m hm hne => ?_⟩
  · unfold NitrousOxideEmission.init_model
    rw [if_pos hm]
  · unfold NitrousOxideEmission.init_model
    rw [if_neg (not_not_intro hm)]
  · simp [NitrousOxideEmission.factor, hne, hm]

/-- Witness for **C5**: the unrecognized name `"bogus"` is defaulted at
construction and fatal at call time. -/
theorem C5_construction_recovers_call_raises_witness :
    NitrousOxideEmission.init_model "bogus" = "model_1" ∧
    n2oex.factor 666 false (some "bogus") =
      Except.error ⟨NitrousOxideEmission.available_models⟩ :=
  ⟨C5_construction_recovers_call_raises.1 "bogus" (by decide),
   C5_construction_recovers_call_raises.2.2 n2oex 666 false "bogus"
     (by decide) (by decide)⟩

/-- **C7**: `diffusion_flux_nonanthro()` equals `diffusion_flux(year=100)`,
and `profile years` has the same length as `years` with the `i`-th element
equal to `diffusion_flux(years[i]) - diffusion_flux_nonanthro() -
pre_impoundment()`. -/
theorem C7_co2_nonanthro_and_profile (e : CarbonDioxideEmission)
    (years : List ℝ) :
    e.diffusion_flux_nonanthro = e.diffusion_flux 100 100 ∧
    (e.profile years).length = years.length ∧
    ∀ (i : ℕ) (y : ℝ), years[i]? = some y →
      (e.profile years)[i]? =
        some (e.diffusion_flux y 100 - e.diffusion_flux_nonanthro
          - e.pre_impoundment) := by
  refine ⟨rfl, ?_, fun i y hy => ?_⟩
  · simp [CarbonDioxideEmission.profile,
      CarbonDioxideEmission.diffusion_flux_profile]
  · simp [CarbonDioxideEmission.profile,
      CarbonDioxideEmission.diffusion_flux_profile, List.getElem?_map, hy]

/-- Witness for **C7** on the worked-example CO2 model with years `[1, 5]`
at index 0. -/
theorem C7_co2_nonanthro_and_profile_witness :
    (co2ex.profile [1, 5]).length = ([1, 5] : List ℝ).length ∧
    (co2ex.profile [1, 5])[0]? =
      some (co2ex.diffusion_flux 1 100 - co2ex.diffusion_flux_nonanthro
        - co2ex.pre_impoundment) :=
  ⟨(C7_co2_nonanthro_and_profile co2ex [1, 5]).2.1,
   (C7_co2_nonanthro_and_profile co2ex [1, 5]).2.2 0 1 rfl⟩

/-- **C9**: CH4 ebullition is time-invariant — `ebullition_flux` returns the
same value for every `year` argument (including `None`),
`ebullition_flux_int` equals `ebullition_flux` itself, and every element of
the ebullition sub-profile equals the scalar `ebullition_flux_int()`. -/
theorem C9_ch4_ebullition_time_invariant (e : MethaneEmission) :
    (∀ y1 y2 : Option ℝ, e.ebullition_flux y1 100 = e.ebullition_flux y2 100) ∧
    e.ebullition_flux_int 100 = e.ebullition_flux none 100 ∧
    ∀ (years : List ℝ) (i : ℕ), i < years.length →
      (e.ebullition_flux_profile years)[i]? =
        some (e.ebullition_flux_int 100) := by
  refine ⟨fun _ _ => rfl, rfl, fun years i hi => ?_⟩
  simp [MethaneEmission.ebullition_flux_profile, List.getElem?_replicate, hi]

/-- Witness for **C9** on the concrete CH4 model with years `[1, 5]` at
index 0. -/
theorem C9_ch4_ebullition_time_invariant_witness :
    (ch4ex.ebullition_flux_profile [1, 5])[0]? =
      some (ch4ex.ebullition_flux_int 100) :=
  (C9_ch4_ebullition_time_invariant ch4ex).2.2 [1, 5] 0 (by simp)

/-- **C2**: the claim requires `diffusion_flux(year=1)` to match the published
regression formula (unit conversions: mg→g, day→year `365`, CO2:C weight
ratio, 100-yr GWP) to within `1e-9` relative tolerance on the worked-example
inputs.  The code multiplies by `365.25` (emissions.py line 252) while its own
docstring and the spec state `365`, so the flux is exactly `365.25/365` times
the published value and the relative deviation is `0.25/365 ≈ 6.8e-4`,
far above the tolerance. -/
theorem C2_co2_flux_off_published_formula :
    co2ex.diffusion_flux 1 100 =
      365.25 / 365 * co2_diffusion_flux_formula co2ex 1 ∧
    ¬ |co2ex.diffusion_flux 1 100 - co2_diffusion_flux_formula co2ex 1| ≤
        1e-9 * |co2_diffusion_flux_formula co2ex 1| := by
  have hF : 0 < co2_diffusion_flux_formula co2ex 1 := by
    refine co2_diffusion_flux_formula_pos co2ex 1 ?_ ?_ ?_ ?_ <;>
      norm_num [co2ex, resA]
  have heq := co2_diffusion_flux_eq_formula co2ex 1 100
  refine ⟨heq, fun hle => ?_⟩
  rw [heq, abs_of_pos hF,
    show (365.25 : ℝ) / 365 * co2_diffusion_flux_formula co2ex 1
        - co2_diffusion_flux_formula co2ex 1 =
      0.25 / 365 * co2_diffusion_flux_formula co2ex 1 by ring,
    abs_of_pos (by positivity)] at hle
  nlinarith [hF]

end Reemission
